import Mathlib

set_option maxRecDepth 8000

/-!
Shallow embedding of the tolerance-resolution core of `src/App.tsx`
(JIS B 0405-1991 general tolerances for linear dimensions).

JavaScript numbers are modelled by `ℚ`; decimal literals from the source
are written as exact fractions (0.05 = 5/100, 0.1 = 1/10, ...).  A value
that can be `null` (absent tolerance) or `NaN` (failed parse) is modelled
by `Option ℚ` with `none` for the absent case.
-/

/-- The four tolerance classes `'f' | 'm' | 'c' | 'v'` (src/App.tsx line 4). -/
inductive ToleranceClass where
  | f
  | m
  | c
  | v
deriving DecidableEq, Repr

/-- `interface ToleranceRange` (src/App.tsx lines 6-15): a nominal-size bucket
`{min, max}` together with the per-class tolerances, each `number | null`. -/
structure ToleranceRange where
  min : ℚ
  max : ℚ
  f : Option ℚ
  m : Option ℚ
  c : Option ℚ
  v : Option ℚ
deriving DecidableEq, Repr

/-- The member access `range.tolerances[tolClass]` of the source. -/
def ToleranceRange.tolerances (r : ToleranceRange) : ToleranceClass → Option ℚ
  | .f => r.f
  | .m => r.m
  | .c => r.c
  | .v => r.v

/-- Row `{ min: 0.5, max: 3, tolerances: { f: 0.05, m: 0.1, c: 0.2, v: null } }`. -/
def range0 : ToleranceRange :=
  ⟨1/2, 3, some (5/100), some (1/10), some (2/10), none⟩

/-- Row `{ min: 3, max: 6, tolerances: { f: 0.05, m: 0.1, c: 0.3, v: 0.5 } }`. -/
def range1 : ToleranceRange :=
  ⟨3, 6, some (5/100), some (1/10), some (3/10), some (1/2)⟩

/-- Row `{ min: 6, max: 30, tolerances: { f: 0.1, m: 0.2, c: 0.5, v: 1 } }`. -/
def range2 : ToleranceRange :=
  ⟨6, 30, some (1/10), some (2/10), some (1/2), some 1⟩

/-- Row `{ min: 30, max: 120, tolerances: { f: 0.15, m: 0.3, c: 0.8, v: 1.5 } }`. -/
def range3 : ToleranceRange :=
  ⟨30, 120, some (15/100), some (3/10), some (8/10), some (15/10)⟩

/-- Row `{ min: 120, max: 400, tolerances: { f: 0.2, m: 0.5, c: 1.2, v: 2.5 } }`. -/
def range4 : ToleranceRange :=
  ⟨120, 400, some (2/10), some (1/2), some (12/10), some (25/10)⟩

/-- Row `{ min: 400, max: 1000, tolerances: { f: 0.3, m: 0.8, c: 2, v: 4 } }`. -/
def range5 : ToleranceRange :=
  ⟨400, 1000, some (3/10), some (8/10), some 2, some 4⟩

/-- Row `{ min: 1000, max: 2000, tolerances: { f: 0.5, m: 1.2, c: 3, v: 6 } }`. -/
def range6 : ToleranceRange :=
  ⟨1000, 2000, some (1/2), some (12/10), some 3, some 6⟩

/-- Row `{ min: 2000, max: 4000, tolerances: { f: null, m: 2, c: 4, v: 8 } }`. -/
def range7 : ToleranceRange :=
  ⟨2000, 4000, none, some 2, some 4, some 8⟩

/-- `const toleranceTable: ToleranceRange[]` (src/App.tsx lines 17-26). -/
def toleranceTable : List ToleranceRange :=
  [range0, range1, range2, range3, range4, range5, range6, range7]

/-- The predicate passed to `toleranceTable.find` (src/App.tsx lines 44-49):
`if (r.min === 0.5) return dimension >= 0.5 && dimension <= 3;
 return dimension > r.min && dimension <= r.max;`. -/
def rangeMatches (dimension : ℚ) (r : ToleranceRange) : Bool :=
  if r.min = 1/2 then decide (1/2 ≤ dimension ∧ dimension ≤ 3)
  else decide (r.min < dimension ∧ dimension ≤ r.max)

/-- `toleranceTable.find(...)` (src/App.tsx line 44): first matching range,
`none` standing for JavaScript `undefined`. -/
def findRange (dimension : ℚ) : Option ToleranceRange :=
  toleranceTable.find? (rangeMatches dimension)

/-- The numeric part of line 40's validity test, for an already-parsed
(non-NaN) dimension: `dimension >= 0.5 && dimension <= 4000`. -/
def isValidDimensionNum (dimension : ℚ) : Bool :=
  decide (1/2 ≤ dimension ∧ dimension ≤ 4000)

/-- The `tolerance` memo (src/App.tsx lines 42-52) for an already-parsed
dimension: `null` when the dimension is invalid, when no range matches,
or when the matched range has no entry for the chosen class. -/
def resolveTolerance (dimension : ℚ) (tolClass : ToleranceClass) : Option ℚ :=
  if isValidDimensionNum dimension then
    match findRange dimension with
    | none => none
    | some range => range.tolerances tolClass
  else none

/-- `const upperLimit = tolerance !== null ? dimension + tolerance : null`
(src/App.tsx line 54), for an already-parsed dimension. -/
def upperLimitNum (dimension : ℚ) (tolClass : ToleranceClass) : Option ℚ :=
  match resolveTolerance dimension tolClass with
  | some t => some (dimension + t)
  | none => none

/-- `const lowerLimit = tolerance !== null ? dimension - tolerance : null`
(src/App.tsx line 55), for an already-parsed dimension. -/
def lowerLimitNum (dimension : ℚ) (tolClass : ToleranceClass) : Option ℚ :=
  match resolveTolerance dimension tolClass with
  | some t => some (dimension - t)
  | none => none

/-! ### Model of `parseFloat`

The source parses the raw input with the ECMAScript builtin
`parseFloat(dimensionStr)` (src/App.tsx line 39).  We model the builtin's
behaviour on decimal literals: skip leading whitespace, an optional sign,
then the longest prefix of the form `digits [. digits] [e|E [sign] digits]`
(trailing garbage ignored); `none` models the `NaN` result when no such
prefix exists.  The special prefix `Infinity` is not modelled (no claim
involves it). -/

/-- Longest prefix of decimal digits, as a list of digit values, plus the
rest of the input. -/
def takeDigits : List Char → List ℕ × List Char
  | [] => ([], [])
  | ch :: rest =>
    if ch.isDigit then
      let (ds, r) := takeDigits rest
      ((ch.toNat - 48) :: ds, r)
    else ([], ch :: rest)

/-- Value of a digit string read in base 10. -/
def natOfDigits (ds : List ℕ) : ℕ :=
  ds.foldl (fun a d => 10 * a + d) 0

/-- Parse an unsigned decimal significand `digits [. digits]`; fails when
neither integer part nor fractional part has a digit. -/
def parseSignificand (cs : List Char) : Option (ℚ × List Char) :=
  let (ip, r1) := takeDigits cs
  match r1 with
  | '.' :: r2 =>
    let (fp, r3) := takeDigits r2
    if ip.isEmpty ∧ fp.isEmpty then none
    else some ((natOfDigits ip : ℚ) + (natOfDigits fp : ℚ) / 10 ^ fp.length, r3)
  | _ =>
    if ip.isEmpty then none else some ((natOfDigits ip : ℚ), r1)

/-- Apply an optional exponent part `e|E [sign] digits` to a parsed
significand; an exponent marker not followed by digits is not consumed. -/
def applyExponent (q : ℚ) (cs : List Char) : ℚ :=
  match cs with
  | 'e' :: r | 'E' :: r =>
    match r with
    | '+' :: r2 =>
      let (ds, _) := takeDigits r2
      if ds.isEmpty then q else q * 10 ^ natOfDigits ds
    | '-' :: r2 =>
      let (ds, _) := takeDigits r2
      if ds.isEmpty then q else q / 10 ^ natOfDigits ds
    | _ =>
      let (ds, _) := takeDigits r
      if ds.isEmpty then q else q * 10 ^ natOfDigits ds
  | _ => q

/-- Model of ECMAScript `parseFloat` on decimal literals; `none` models
`NaN`. -/
def parseFloat (s : String) : Option ℚ :=
  let cs := s.toList.dropWhile fun ch =>
    ch = ' ' ∨ ch = '\t' ∨ ch = '\n' ∨ ch = '\r'
  match cs with
  | '-' :: r =>
    match parseSignificand r with
    | none => none
    | some (q, rest) => some (-(applyExponent q rest))
  | '+' :: r =>
    match parseSignificand r with
    | none => none
    | some (q, rest) => some (applyExponent q rest)
  | _ =>
    match parseSignificand cs with
    | none => none
    | some (q, rest) => some (applyExponent q rest)

/-- `const dimension = parseFloat(dimensionStr)` (src/App.tsx line 39). -/
def dimension (dimensionStr : String) : Option ℚ :=
  parseFloat dimensionStr

/-- `const isValidDimension = !isNaN(dimension) && dimension >= 0.5 &&
dimension <= 4000` (src/App.tsx line 40). -/
def isValidDimension (dimensionStr : String) : Bool :=
  match parseFloat dimensionStr with
  | none => false
  | some d => isValidDimensionNum d

/-- The `tolerance` memo (src/App.tsx lines 42-52) from the raw input
string. -/
def tolerance (dimensionStr : String) (tolClass : ToleranceClass) : Option ℚ :=
  match parseFloat dimensionStr with
  | none => none
  | some d => resolveTolerance d tolClass

/-! ### The rendered outcome

The output section (src/App.tsx lines 150-175) distinguishes three cases:
`tolerance === null && !isValidDimension` (invalid-dimension message),
`tolerance === null && isValidDimension` (tolerance-not-specified message),
and `tolerance !== null` (the three numeric results). -/

/-- The three mutually exclusive rendered outcomes. -/
inductive Outcome where
  | invalidDimension
  | unspecifiedTolerance
  | resolved (tol upper lower : ℚ)
deriving DecidableEq, Repr

/-- The outcome the component renders for a raw input string and a
tolerance class (src/App.tsx lines 39-55 and 150-175). -/
def outcome (dimensionStr : String) (tolClass : ToleranceClass) : Outcome :=
  match parseFloat dimensionStr with
  | none => .invalidDimension
  | some d =>
    if isValidDimensionNum d then
      match resolveTolerance d tolClass with
      | none => .unspecifiedTolerance
      | some t => .resolved t (d + t) (d - t)
    else .invalidDimension

/-! ### Model of `formatNumber`

`formatNumber` (src/App.tsx lines 58-61) is
`Number(num.toFixed(3)).toString()`: round to 3 decimal digits
(`toFixed`: nearest, ties to the larger value) and re-read the result,
which drops the trailing zeros of the fractional part. -/

/-- Decimal rendering of `n / 1000` with the trailing zeros of the
fractional part stripped, as `Number(...).toString()` produces for the
re-read value of `toFixed(3)`. -/
def formatRounded (n : ℤ) : String :=
  let a := n.natAbs
  let sign := if n < 0 then "-" else ""
  let whole := a / 1000
  let frac := a % 1000
  if frac = 0 then sign ++ Nat.repr whole
  else
    let d1 := frac / 100
    let d2 := frac / 10 % 10
    let d3 := frac % 10
    if d3 ≠ 0 then
      sign ++ Nat.repr whole ++ "." ++ Nat.repr d1 ++ Nat.repr d2 ++ Nat.repr d3
    else if d2 ≠ 0 then
      sign ++ Nat.repr whole ++ "." ++ Nat.repr d1 ++ Nat.repr d2
    else sign ++ Nat.repr whole ++ "." ++ Nat.repr d1

/-- `formatNumber` (src/App.tsx lines 58-61): `'-'` for `null`, otherwise
`Number(num.toFixed(3)).toString()`; `round` is ties-to-larger, exactly
ECMAScript `toFixed`'s choice of the integer `n`. -/
def formatNumber (num : Option ℚ) : String :=
  match num with
  | none => "-"
  | some q => formatRounded (round (q * 1000))

/-- Rounding a value to 3 decimal digits, the numeric content of
`Number(num.toFixed(3))`. -/
def roundTo3 (q : ℚ) : ℚ :=
  ((round (q * 1000) : ℤ) : ℚ) / 1000

/-! ### Range-membership characterizations

One lemma per table row, unfolding the `find` predicate of
src/App.tsx lines 44-49. -/

/-- Membership test of the first row is the closed interval `[0.5, 3]`. -/
lemma rangeMatches_zero (d : ℚ) :
    rangeMatches d range0 = true ↔ 1/2 ≤ d ∧ d ≤ 3 := by
  simp [rangeMatches, range0]

/-- Membership test of the second row is the half-open interval `(3, 6]`. -/
lemma rangeMatches_one (d : ℚ) :
    rangeMatches d range1 = true ↔ 3 < d ∧ d ≤ 6 := by
  rw [rangeMatches]
  norm_num [range1]

/-- Membership test of the third row is the half-open interval `(6, 30]`. -/
lemma rangeMatches_two (d : ℚ) :
    rangeMatches d range2 = true ↔ 6 < d ∧ d ≤ 30 := by
  rw [rangeMatches]
  norm_num [range2]

/-- Membership test of the fourth row is the half-open interval `(30, 120]`. -/
lemma rangeMatches_three (d : ℚ) :
    rangeMatches d range3 = true ↔ 30 < d ∧ d ≤ 120 := by
  rw [rangeMatches]
  norm_num [range3]

/-- Membership test of the fifth row is the half-open interval `(120, 400]`. -/
lemma rangeMatches_four (d : ℚ) :
    rangeMatches d range4 = true ↔ 120 < d ∧ d ≤ 400 := by
  rw [rangeMatches]
  norm_num [range4]

/-- Membership test of the sixth row is the half-open interval `(400, 1000]`. -/
lemma rangeMatches_five (d : ℚ) :
    rangeMatches d range5 = true ↔ 400 < d ∧ d ≤ 1000 := by
  rw [rangeMatches]
  norm_num [range5]

/-- Membership test of the seventh row is the half-open interval `(1000, 2000]`. -/
lemma rangeMatches_six (d : ℚ) :
    rangeMatches d range6 = true ↔ 1000 < d ∧ d ≤ 2000 := by
  rw [rangeMatches]
  norm_num [range6]

/-- Membership test of the eighth row is the half-open interval `(2000, 4000]`. -/
lemma rangeMatches_seven (d : ℚ) :
    rangeMatches d range7 = true ↔ 2000 < d ∧ d ≤ 4000 := by
  rw [rangeMatches]
  norm_num [range7]

/-! ### Which row the scan returns, per bucket -/

/-- On `[0.5, 3]` the scan stops at the first row. -/
lemma findRange_eq_zero {d : ℚ} (h1 : 1/2 ≤ d) (h2 : d ≤ 3) :
    findRange d = some range0 := by
  show List.find? (rangeMatches d) toleranceTable = some range0
  rw [toleranceTable]
  rw [List.find?_cons_of_pos _ ((rangeMatches_zero d).mpr ⟨h1, h2⟩)]

/-- On `(3, 6]` the scan stops at the second row. -/
lemma findRange_eq_one {d : ℚ} (h1 : 3 < d) (h2 : d ≤ 6) :
    findRange d = some range1 := by
  have n0 : ¬ rangeMatches d range0 = true := by
    rw [rangeMatches_zero]; rintro ⟨-, h⟩; linarith
  show List.find? (rangeMatches d) toleranceTable = some range1
  rw [toleranceTable]
  rw [List.find?_cons_of_neg _ n0]
  rw [List.find?_cons_of_pos _ ((rangeMatches_one d).mpr ⟨h1, h2⟩)]

/-- On `(6, 30]` the scan stops at the third row. -/
lemma findRange_eq_two {d : ℚ} (h1 : 6 < d) (h2 : d ≤ 30) :
    findRange d = some range2 := by
  have n0 : ¬ rangeMatches d range0 = true := by
    rw [rangeMatches_zero]; rintro ⟨-, h⟩; linarith
  have n1 : ¬ rangeMatches d range1 = true := by
    rw [rangeMatches_one]; rintro ⟨-, h⟩; linarith
  show List.find? (rangeMatches d) toleranceTable = some range2
  rw [toleranceTable]
  rw [List.find?_cons_of_neg _ n0, List.find?_cons_of_neg _ n1]
  rw [List.find?_cons_of_pos _ ((rangeMatches_two d).mpr ⟨h1, h2⟩)]

/-- On `(30, 120]` the scan stops at the fourth row. -/
lemma findRange_eq_three {d : ℚ} (h1 : 30 < d) (h2 : d ≤ 120) :
    findRange d = some range3 := by
  have n0 : ¬ rangeMatches d range0 = true := by
    rw [rangeMatches_zero]; rintro ⟨-, h⟩; linarith
  have n1 : ¬ rangeMatches d range1 = true := by
    rw [rangeMatches_one]; rintro ⟨-, h⟩; linarith
  have n2 : ¬ rangeMatches d range2 = true := by
    rw [rangeMatches_two]; rintro ⟨-, h⟩; linarith
  show List.find? (rangeMatches d) toleranceTable = some range3
  rw [toleranceTable]
  rw [List.find?_cons_of_neg _ n0, List.find?_cons_of_neg _ n1,
    List.find?_cons_of_neg _ n2]
  rw [List.find?_cons_of_pos _ ((rangeMatches_three d).mpr ⟨h1, h2⟩)]

/-- On `(120, 400]` the scan stops at the fifth row. -/
lemma findRange_eq_four {d : ℚ} (h1 : 120 < d) (h2 : d ≤ 400) :
    findRange d = some range4 := by
  have n0 : ¬ rangeMatches d range0 = true := by
    rw [rangeMatches_zero]; rintro ⟨-, h⟩; linarith
  have n1 : ¬ rangeMatches d range1 = true := by
    rw [rangeMatches_one]; rintro ⟨-, h⟩; linarith
  have n2 : ¬ rangeMatches d range2 = true := by
    rw [rangeMatches_two]; rintro ⟨-, h⟩; linarith
  have n3 : ¬ rangeMatches d range3 = true := by
    rw [rangeMatches_three]; rintro ⟨-, h⟩; linarith
  show List.find? (rangeMatches d) toleranceTable = some range4
  rw [toleranceTable]
  rw [List.find?_cons_of_neg _ n0, List.find?_cons_of_neg _ n1,
    List.find?_cons_of_neg _ n2, List.find?_cons_of_neg _ n3]
  rw [List.find?_cons_of_pos _ ((rangeMatches_four d).mpr ⟨h1, h2⟩)]

/-- On `(400, 1000]` the scan stops at the sixth row. -/
lemma findRange_eq_five {d : ℚ} (h1 : 400 < d) (h2 : d ≤ 1000) :
    findRange d = some range5 := by
  have n0 : ¬ rangeMatches d range0 = true := by
    rw [rangeMatches_zero]; rintro ⟨-, h⟩; linarith
  have n1 : ¬ rangeMatches d range1 = true := by
    rw [rangeMatches_one]; rintro ⟨-, h⟩; linarith
  have n2 : ¬ rangeMatches d range2 = true := by
    rw [rangeMatches_two]; rintro ⟨-, h⟩; linarith
  have n3 : ¬ rangeMatches d range3 = true := by
    rw [rangeMatches_three]; rintro ⟨-, h⟩; linarith
  have n4 : ¬ rangeMatches d range4 = true := by
    rw [rangeMatches_four]; rintro ⟨-, h⟩; linarith
  show List.find? (rangeMatches d) toleranceTable = some range5
  rw [toleranceTable]
  rw [List.find?_cons_of_neg _ n0, List.find?_cons_of_neg _ n1,
    List.find?_cons_of_neg _ n2, List.find?_cons_of_neg _ n3,
    List.find?_cons_of_neg _ n4]
  rw [List.find?_cons_of_pos _ ((rangeMatches_five d).mpr ⟨h1, h2⟩)]

/-- On `(1000, 2000]` the scan stops at the seventh row. -/
lemma findRange_eq_six {d : ℚ} (h1 : 1000 < d) (h2 : d ≤ 2000) :
    findRange d = some range6 := by
  have n0 : ¬ rangeMatches d range0 = true := by
    rw [rangeMatches_zero]; rintro ⟨-, h⟩; linarith
  have n1 : ¬ rangeMatches d range1 = true := by
    rw [rangeMatches_one]; rintro ⟨-, h⟩; linarith
  have n2 : ¬ rangeMatches d range2 = true := by
    rw [rangeMatches_two]; rintro ⟨-, h⟩; linarith
  have n3 : ¬ rangeMatches d range3 = true := by
    rw [rangeMatches_three]; rintro ⟨-, h⟩; linarith
  have n4 : ¬ rangeMatches d range4 = true := by
    rw [rangeMatches_four]; rintro ⟨-, h⟩; linarith
  have n5 : ¬ rangeMatches d range5 = true := by
    rw [rangeMatches_five]; rintro ⟨-, h⟩; linarith
  show List.find? (rangeMatches d) toleranceTable = some range6
  rw [toleranceTable]
  rw [List.find?_cons_of_neg _ n0, List.find?_cons_of_neg _ n1,
    List.find?_cons_of_neg _ n2, List.find?_cons_of_neg _ n3,
    List.find?_cons_of_neg _ n4, List.find?_cons_of_neg _ n5]
  rw [List.find?_cons_of_pos _ ((rangeMatches_six d).mpr ⟨h1, h2⟩)]

/-- On `(2000, 4000]` the scan stops at the eighth row. -/
lemma findRange_eq_seven {d : ℚ} (h1 : 2000 < d) (h2 : d ≤ 4000) :
    findRange d = some range7 := by
  have n0 : ¬ rangeMatches d range0 = true := by
    rw [rangeMatches_zero]; rintro ⟨-, h⟩; linarith
  have n1 : ¬ rangeMatches d range1 = true := by
    rw [rangeMatches_one]; rintro ⟨-, h⟩; linarith
  have n2 : ¬ rangeMatches d range2 = true := by
    rw [rangeMatches_two]; rintro ⟨-, h⟩; linarith
  have n3 : ¬ rangeMatches d range3 = true := by
    rw [rangeMatches_three]; rintro ⟨-, h⟩; linarith
  have n4 : ¬ rangeMatches d range4 = true := by
    rw [rangeMatches_four]; rintro ⟨-, h⟩; linarith
  have n5 : ¬ rangeMatches d range5 = true := by
    rw [rangeMatches_five]; rintro ⟨-, h⟩; linarith
  have n6 : ¬ rangeMatches d range6 = true := by
    rw [rangeMatches_six]; rintro ⟨-, h⟩; linarith
  show List.find? (rangeMatches d) toleranceTable = some range7
  rw [toleranceTable]
  rw [List.find?_cons_of_neg _ n0, List.find?_cons_of_neg _ n1,
    List.find?_cons_of_neg _ n2, List.find?_cons_of_neg _ n3,
    List.find?_cons_of_neg _ n4, List.find?_cons_of_neg _ n5,
    List.find?_cons_of_neg _ n6]
  rw [List.find?_cons_of_pos _ ((rangeMatches_seven d).mpr ⟨h1, h2⟩)]

/-- Every validated dimension falls in exactly one of the eight buckets,
and the scan returns that bucket's row. -/
lemma bucket_cases {d : ℚ} (h1 : 1/2 ≤ d) (h2 : d ≤ 4000) :
    (d ≤ 3 ∧ findRange d = some range0) ∨
    (3 < d ∧ d ≤ 6 ∧ findRange d = some range1) ∨
    (6 < d ∧ d ≤ 30 ∧ findRange d = some range2) ∨
    (30 < d ∧ d ≤ 120 ∧ findRange d = some range3) ∨
    (120 < d ∧ d ≤ 400 ∧ findRange d = some range4) ∨
    (400 < d ∧ d ≤ 1000 ∧ findRange d = some range5) ∨
    (1000 < d ∧ d ≤ 2000 ∧ findRange d = some range6) ∨
    (2000 < d ∧ d ≤ 4000 ∧ findRange d = some range7) := by
  rcases le_or_lt d 3 with h | h
  · exact Or.inl ⟨h, findRange_eq_zero h1 h⟩
  rcases le_or_lt d 6 with h' | h'
  · exact Or.inr (Or.inl ⟨h, h', findRange_eq_one h h'⟩)
  rcases le_or_lt d 30 with h'' | h''
  · exact Or.inr (Or.inr (Or.inl ⟨h', h'', findRange_eq_two h' h''⟩))
  rcases le_or_lt d 120 with h3 | h3
  · exact Or.inr (Or.inr (Or.inr (Or.inl ⟨h'', h3, findRange_eq_three h'' h3⟩)))
  rcases le_or_lt d 400 with h4 | h4
  · exact Or.inr (Or.inr (Or.inr (Or.inr (Or.inl
      ⟨h3, h4, findRange_eq_four h3 h4⟩))))
  rcases le_or_lt d 1000 with h5 | h5
  · exact Or.inr (Or.inr (Or.inr (Or.inr (Or.inr (Or.inl
      ⟨h4, h5, findRange_eq_five h4 h5⟩)))))
  rcases le_or_lt d 2000 with h6 | h6
  · exact Or.inr (Or.inr (Or.inr (Or.inr (Or.inr (Or.inr (Or.inl
      ⟨h5, h6, findRange_eq_six h5 h6⟩))))))
  · exact Or.inr (Or.inr (Or.inr (Or.inr (Or.inr (Or.inr (Or.inr
      ⟨h6, h2, findRange_eq_seven h6 h2⟩))))))

/-- Every tolerance value present in the table is strictly positive. -/
lemma tolerances_pos {r : ToleranceRange} (hr : r ∈ toleranceTable)
    (g : ToleranceClass) {t : ℚ} (ht : r.tolerances g = some t) : 0 < t := by
  fin_cases hr <;> cases g <;>
    simp only [ToleranceRange.tolerances, range0, range1, range2, range3,
      range4, range5, range6, range7] at ht <;>
  cases ht <;> norm_num

/-- When the dimension is valid and the scan returns a row, the memo value
is that row's entry for the chosen class. -/
lemma resolveTolerance_eq_of_find {d : ℚ} (hv : isValidDimensionNum d = true)
    {r : ToleranceRange} (hf : findRange d = some r) (g : ToleranceClass) :
    resolveTolerance d g = r.tolerances g := by
  simp only [resolveTolerance, hv, if_true, hf]

/-- Validity of an already-parsed dimension, in propositional form. -/
lemma isValidDimensionNum_eq_true {d : ℚ} (h1 : 1/2 ≤ d) (h2 : d ≤ 4000) :
    isValidDimensionNum d = true := by
  simp only [isValidDimensionNum, decide_eq_true_eq]
  exact ⟨h1, h2⟩

/-! ### The claims -/

/-- C1: range lookup uses a closed interval only for the first bucket and
open-low/closed-high intervals for all others: a validated dimension `d` is
assigned to the first bucket whenever `0.5 ≤ d ≤ 3`, and to any later
bucket whenever `min < d ≤ max`; in particular `d = 3` falls in `[0.5, 3]`
and `d = 3.0001` falls in `(3, 6]`. -/
theorem claim1_bucket_boundaries (d : ℚ) :
    (1/2 ≤ d → d ≤ 3 → findRange d = some range0) ∧
    (∀ r ∈ toleranceTable, r ≠ range0 → r.min < d → d ≤ r.max →
      findRange d = some r) ∧
    findRange 3 = some range0 ∧ findRange (30001/10000) = some range1 := by
  refine ⟨fun h1 h2 => findRange_eq_zero h1 h2, ?_, ?_, ?_⟩
  · intro r hr hne hmin hmax
    fin_cases hr
    · exact absurd rfl hne
    · exact findRange_eq_one hmin hmax
    · exact findRange_eq_two hmin hmax
    · exact findRange_eq_three hmin hmax
    · exact findRange_eq_four hmin hmax
    · exact findRange_eq_five hmin hmax
    · exact findRange_eq_six hmin hmax
    · exact findRange_eq_seven hmin hmax
  · exact findRange_eq_zero (by norm_num) (by norm_num)
  · exact findRange_eq_one (by norm_num) (by norm_num)

/-- C1 witness: the general parts of the claim instantiated at `d = 2` for
the first bucket and `d = 10` for the bucket `(6, 30]`. -/
theorem claim1_bucket_boundaries_witness :
    findRange 2 = some range0 ∧ findRange 10 = some range2 :=
  ⟨(claim1_bucket_boundaries 2).1 (by norm_num) (by norm_num),
   (claim1_bucket_boundaries 10).2.1 range2 (by
      simp [toleranceTable]) (by
      intro h
      have hm := congrArg ToleranceRange.min h
      norm_num [range2, range0] at hm) (by norm_num [range2])
      (by norm_num [range2])⟩

/-- C2: for every dimension `0.5 ≤ d ≤ 4000` and grade `g` for which the
table defines a value `t`, the resolved tolerance is strictly positive and
the computed limits bracket `d` strictly:
`lower = d - t < d < d + t = upper`. -/
theorem claim2_positive_tolerance_strict_limits (d : ℚ) (g : ToleranceClass)
    (t : ℚ) (h1 : 1/2 ≤ d) (h2 : d ≤ 4000)
    (ht : resolveTolerance d g = some t) :
    0 < t ∧ upperLimitNum d g = some (d + t) ∧
      lowerLimitNum d g = some (d - t) ∧ d - t < d ∧ d < d + t := by
  have hv := isValidDimensionNum_eq_true h1 h2
  have hpos : 0 < t := by
    cases hf : findRange d with
    | none =>
      have hnone : resolveTolerance d g = none := by
        simp only [resolveTolerance, hv, if_true, hf]
      rw [hnone] at ht
      cases ht
    | some r =>
      rw [resolveTolerance_eq_of_find hv hf g] at ht
      exact tolerances_pos (List.mem_of_find?_eq_some hf) g ht
  refine ⟨hpos, ?_, ?_, by linarith, by linarith⟩
  · rw [upperLimitNum, ht]
  · rw [lowerLimitNum, ht]

/-- C2 witness: `d = 10`, grade `m`, `t = 0.2`. -/
theorem claim2_positive_tolerance_strict_limits_witness :
    0 < (2/10 : ℚ) ∧ upperLimitNum 10 .m = some (10 + 2/10) ∧
      lowerLimitNum 10 .m = some (10 - 2/10) ∧
      (10 - 2/10 : ℚ) < 10 ∧ (10 : ℚ) < 10 + 2/10 :=
  claim2_positive_tolerance_strict_limits 10 .m (2/10) (by norm_num)
    (by norm_num) (by with_unfolding_all rfl)

/-- C4: the table's buckets are non-overlapping and together cover the
whole validated domain `[0.5, 4000]`: for every such dimension the scan
finds a row (the `undefined`/NotFound branch is unreachable), and no two
distinct rows both match. -/
theorem claim4_coverage_no_overlap (d : ℚ) (h1 : 1/2 ≤ d) (h2 : d ≤ 4000) :
    (∃ r, findRange d = some r) ∧
    (∀ r₁ ∈ toleranceTable, ∀ r₂ ∈ toleranceTable,
      rangeMatches d r₁ = true → rangeMatches d r₂ = true → r₁ = r₂) := by
  constructor
  · rcases bucket_cases h1 h2 with ⟨-, h⟩ | ⟨-, -, h⟩ | ⟨-, -, h⟩ | ⟨-, -, h⟩ |
      ⟨-, -, h⟩ | ⟨-, -, h⟩ | ⟨-, -, h⟩ | ⟨-, -, h⟩ <;> exact ⟨_, h⟩
  · intro r₁ hr₁ r₂ hr₂ m₁ m₂
    fin_cases hr₁ <;> fin_cases hr₂ <;>
      simp only [rangeMatches_zero, rangeMatches_one, rangeMatches_two,
        rangeMatches_three, rangeMatches_four, rangeMatches_five,
        rangeMatches_six, rangeMatches_seven] at m₁ m₂ <;>
    first
      | rfl
      | (exfalso
         obtain ⟨a, b⟩ := m₁
         obtain ⟨c, e⟩ := m₂
         linarith)

/-- C4 witness: at `d = 3` the scan succeeds (it returns the first row). -/
theorem claim4_coverage_no_overlap_witness :
    ∃ r, findRange 3 = some r :=
  (claim4_coverage_no_overlap 3 (by norm_num) (by norm_num)).1

/-- C5 as stated is false at `d = 3`: the first bucket `[0.5, 3]` has no
very-coarse entry, so `resolveTolerance 3 v` is unspecified although `3`
is not below `3` — "Unspecified exactly when d is below 3mm" fails. -/
theorem claim5_counterexample :
    resolveTolerance 3 ToleranceClass.v = none ∧
      isValidDimensionNum 3 = true ∧ ¬ ((3 : ℚ) < 3) :=
  ⟨by with_unfolding_all rfl, by with_unfolding_all rfl, by norm_num⟩

/-- C5 amended: for every valid dimension, very-coarse is unspecified
exactly when `d ≤ 3` (at or below 3mm, since the first bucket is the
closed interval `[0.5, 3]`), and fine is unspecified exactly when
`d > 2000`; in particular `d = 3000` with grade fine is unspecified. -/
theorem claim5_amended_unspecified_grades (d : ℚ)
    (h1 : 1/2 ≤ d) (h2 : d ≤ 4000) :
    (resolveTolerance d ToleranceClass.v = none ↔ d ≤ 3) ∧
    (resolveTolerance d ToleranceClass.f = none ↔ 2000 < d) ∧
    resolveTolerance 3000 ToleranceClass.f = none := by
  have hv := isValidDimensionNum_eq_true h1 h2
  refine ⟨?_, ?_, by with_unfolding_all rfl⟩ <;>
    rcases bucket_cases h1 h2 with ⟨hb, hf⟩ | ⟨ha, hb, hf⟩ | ⟨ha, hb, hf⟩ |
      ⟨ha, hb, hf⟩ | ⟨ha, hb, hf⟩ | ⟨ha, hb, hf⟩ | ⟨ha, hb, hf⟩ |
      ⟨ha, hb, hf⟩ <;>
    rw [resolveTolerance_eq_of_find hv hf] <;>
    simp only [ToleranceRange.tolerances, range0, range1, range2, range3,
      range4, range5, range6, range7] <;>
    constructor <;> intro hx <;> first
      | linarith
      | cases hx
      | rfl
      | trivial

/-- C5 amended witness: `d = 3` (very-coarse unspecified, `3 ≤ 3`) and the
concrete `3000`/fine instance. -/
theorem claim5_amended_unspecified_grades_witness :
    (resolveTolerance 3 ToleranceClass.v = none ↔ (3 : ℚ) ≤ 3) ∧
    (resolveTolerance 3 ToleranceClass.f = none ↔ (2000 : ℚ) < 3) ∧
    resolveTolerance 3000 ToleranceClass.f = none :=
  claim5_amended_unspecified_grades 3 (by norm_num) (by norm_num)

/-- C6: when a tolerance `t` is resolved, the limits are exactly
`upper = d + t` and `lower = d - t` (pure rational arithmetic, no
rounding); when the tolerance is unspecified, both limits are unspecified. -/
theorem claim6_limit_arithmetic (d : ℚ) (g : ToleranceClass) :
    (∀ t, resolveTolerance d g = some t →
      upperLimitNum d g = some (d + t) ∧ lowerLimitNum d g = some (d - t)) ∧
    (resolveTolerance d g = none →
      upperLimitNum d g = none ∧ lowerLimitNum d g = none) := by
  constructor
  · intro t ht
    constructor
    · rw [upperLimitNum, ht]
    · rw [lowerLimitNum, ht]
  · intro hn
    constructor
    · rw [upperLimitNum, hn]
    · rw [lowerLimitNum, hn]

/-- C7: for `d = 10` with grade medium the scan assigns the bucket
`(6, 30]`, the tolerance is `0.2`, and the limits are `10.2` and `9.8`. -/
theorem claim7_ten_medium :
    findRange 10 = some range2 ∧ range2.min = 6 ∧ range2.max = 30 ∧
    resolveTolerance 10 ToleranceClass.m = some (2/10) ∧
    upperLimitNum 10 ToleranceClass.m = some (102/10) ∧
    lowerLimitNum 10 ToleranceClass.m = some (98/10) :=
  ⟨findRange_eq_two (by norm_num) (by norm_num), rfl, rfl,
   by with_unfolding_all rfl, by with_unfolding_all rfl,
   by with_unfolding_all rfl⟩

/-- C3: validation fails exactly when the input does not parse as a number
or the parsed value lies outside `[0.5, 4000]`; in particular `"0.4"` is
invalid while `"4000"` is valid and resolves against the bucket
`(2000, 4000]`. -/
theorem claim3_validation (s : String) :
    (isValidDimension s = false ↔
      parseFloat s = none ∨
        ∃ q, parseFloat s = some q ∧ (q < 1/2 ∨ 4000 < q)) ∧
    isValidDimension "0.4" = false ∧
    isValidDimension "4000" = true ∧
    parseFloat "4000" = some 4000 ∧
    findRange 4000 = some range7 := by
  refine ⟨?_, by with_unfolding_all rfl, by with_unfolding_all rfl,
    by with_unfolding_all rfl, findRange_eq_seven (by norm_num) (by norm_num)⟩
  cases h : parseFloat s with
  | none => simp [isValidDimension, h]
  | some q =>
    simp [isValidDimension, isValidDimensionNum, h, not_and_or, not_le]
    constructor
    · intro himp
      rcases lt_or_le q (1/2) with hlt | hge
      · exact Or.inl (by linarith)
      · exact Or.inr (himp (by linarith))
    · rintro (hlt | hgt) hge
      · linarith
      · exact hgt

/-- C3 witness: the equivalence applied to the concrete input `"0.4"`,
whose parsed value `0.4` is below the domain. -/
theorem claim3_validation_witness :
    isValidDimension "0.4" = false ↔
      parseFloat "0.4" = none ∨
        ∃ q, parseFloat "0.4" = some q ∧ (q < 1/2 ∨ 4000 < q) :=
  (claim3_validation "0.4").1

/-- C8: for every raw input string and grade the rendered outcome is
exactly one of the three distinguishable results, the invalid-dimension
state occurs exactly when validation fails, the unspecified-tolerance
state occurs exactly when validation succeeds but the memo is `null`, and
a resolved record carries the memo's tolerance with the two limits; no
other outcome (and no exception) is possible. -/
theorem claim8_outcome_trichotomy (s : String) (g : ToleranceClass) :
    (outcome s g = Outcome.invalidDimension ∨
      outcome s g = Outcome.unspecifiedTolerance ∨
      ∃ t u l, outcome s g = Outcome.resolved t u l) ∧
    (outcome s g = Outcome.invalidDimension ↔ isValidDimension s = false) ∧
    (outcome s g = Outcome.unspecifiedTolerance ↔
      isValidDimension s = true ∧ tolerance s g = none) ∧
    (∀ t u l, outcome s g = Outcome.resolved t u l →
      isValidDimension s = true ∧ tolerance s g = some t ∧
        ∃ q, parseFloat s = some q ∧ u = q + t ∧ l = q - t) := by
  cases hp : parseFloat s with
  | none =>
    simp [outcome, isValidDimension, tolerance, hp]
  | some q =>
    rcases hv : isValidDimensionNum q with _ | _
    · have hrn : resolveTolerance q g = none := by
        rw [resolveTolerance, hv]
        simp
      simp [outcome, isValidDimension, tolerance, hp, hv, hrn]
    · cases hr : resolveTolerance q g with
      | none => simp [outcome, isValidDimension, tolerance, hp, hv, hr]
      | some t => simp [outcome, isValidDimension, tolerance, hp, hv, hr]

/-- C9: each displayed value is the 3-decimal rounding of the computed
number with representation artifacts stripped: the display depends only on
`round(q * 1000)`, re-displaying the rounded value changes nothing, and
the artifact value `2.9000000000000004` formats as `"2.9"`. -/
theorem claim9_display_rounding :
    (∀ q : ℚ, formatNumber (some q) = formatRounded (round (q * 1000)) ∧
      formatNumber (some (roundTo3 q)) = formatNumber (some q)) ∧
    formatNumber (some (29000000000000004/10000000000000000)) = "2.9" := by
  constructor
  · intro q
    refine ⟨rfl, ?_⟩
    show formatRounded (round (roundTo3 q * 1000)) =
      formatRounded (round (q * 1000))
    have h : roundTo3 q * 1000 = ((round (q * 1000) : ℤ) : ℚ) := by
      rw [roundTo3]
      field_simp
    rw [h, round_intCast]
  · with_unfolding_all rfl

/-- C10 (implicit behaviour): `parseFloat` accepts any string whose
numeric prefix parses, ignoring trailing non-numeric characters; the input
`"10abc"` passes validation and is treated as the dimension `10`. -/
theorem claim10_numeric_prefix :
    parseFloat "10abc" = some 10 ∧
    isValidDimension "10abc" = true ∧
    tolerance "10abc" ToleranceClass.m = resolveTolerance 10 ToleranceClass.m ∧
    tolerance "10abc" ToleranceClass.m = some (2/10) := by
  have h10 : parseFloat "10abc" = some 10 := by with_unfolding_all rfl
  refine ⟨h10, by with_unfolding_all rfl, ?_, by with_unfolding_all rfl⟩
  simp only [tolerance, h10]

/-- C6 witness: the limit arithmetic applied at `d = 10`, grade medium,
`t = 0.2`. -/
theorem claim6_limit_arithmetic_witness :
    upperLimitNum 10 ToleranceClass.m = some (10 + 2/10) ∧
    lowerLimitNum 10 ToleranceClass.m = some (10 - 2/10) :=
  (claim6_limit_arithmetic 10 ToleranceClass.m).1 (2/10)
    (by with_unfolding_all rfl)

/-- C8 witness: the trichotomy applied to the concrete inputs `"0.4"`
(invalid) with grade medium. -/
theorem claim8_outcome_trichotomy_witness :
    outcome "0.4" ToleranceClass.m = Outcome.invalidDimension ↔
      isValidDimension "0.4" = false :=
  (claim8_outcome_trichotomy "0.4" ToleranceClass.m).2.1
